import Mathlib

/-!
# Verification of the timelapse-stitcher utilities

Shallow embedding of the two command-line programs of the repository:

* `make_filelist.py` — scans a directory listing, detects one of two JPEG
  filename conventions (`DSCF0851.JPG` or `DSCF0851_0001.jpg`), filters the
  extracted frame numbers by optional start/end bounds and a skip-list, sorts
  ascending and emits `file '<path>'` manifest lines.
* `render_timelapse.py` — resolves render options (aspect mode, look preset,
  watermark geometry, output naming) and builds the encoder's filter string
  and the boomerang manifest.

Python floats are modelled as exact rationals (`ℚ`); the float values the
program actually manipulates (CLI decimals, the preset tables) are exact
decimals, for which Python's `==`/`!=`/`<` and `repr` agree with the rational
model.  Filesystem facts (`os.path.isdir`, `os.listdir`, EXIF lookups) enter
as explicit parameters.  Fallible code is modelled with `Except`.
-/

namespace Timelapse

/-! ## Character / filename pattern model (make_filelist.py)

`pattern_simple  = re.compile(r"(DSCF)(\d{4})\.JPG$", re.IGNORECASE)`
`pattern_suffix  = re.compile(r"(DSCF\d{4})_(\d{4})\.JPG$", re.IGNORECASE)`

Both patterns are anchored on the left by `re.match` and on the right by `$`,
so a filename matches iff it has exactly the fixed 12- resp. 17-character
shape.  `\d` is modelled as an ASCII digit. -/

/-- Case-insensitive character comparison (`re.IGNORECASE`). -/
def eqCI (c d : Char) : Bool := c.toLower == d.toLower

/-- Numeric value of an ASCII digit character. -/
def digitVal (c : Char) : Nat := c.toNat - '0'.toNat

/-- Value of a four-digit group, as `int()` of the matched text. -/
def num4 (a b c d : Char) : Nat :=
  1000 * digitVal a + 100 * digitVal b + 10 * digitVal c + digitVal d

/-- `pattern_simple.match`: `DSCF####.JPG` (case-insensitive), returning the
`int` of group 2 (the DSCF counter). -/
def matchSimple (s : String) : Option Nat :=
  match s.data with
  | [c1, c2, c3, c4, n1, n2, n3, n4, c5, c6, c7, c8] =>
    if eqCI c1 'D' && eqCI c2 'S' && eqCI c3 'C' && eqCI c4 'F'
        && n1.isDigit && n2.isDigit && n3.isDigit && n4.isDigit
        && c5 == '.' && eqCI c6 'J' && eqCI c7 'P' && eqCI c8 'G' then
      some (num4 n1 n2 n3 n4)
    else none
  | _ => none

/-- `pattern_suffix.match`: `DSCF####_####.JPG` (case-insensitive), returning
the `int` of group 2 (the suffix counter). -/
def matchSuffix (s : String) : Option Nat :=
  match s.data with
  | [c1, c2, c3, c4, d1, d2, d3, d4, u, n1, n2, n3, n4, c5, c6, c7, c8] =>
    if eqCI c1 'D' && eqCI c2 'S' && eqCI c3 'C' && eqCI c4 'F'
        && d1.isDigit && d2.isDigit && d3.isDigit && d4.isDigit
        && u == '_'
        && n1.isDigit && n2.isDigit && n3.isDigit && n4.isDigit
        && c5 == '.' && eqCI c6 'J' && eqCI c7 'P' && eqCI c8 'G' then
      some (num4 n1 n2 n3 n4)
    else none
  | _ => none

/-- The detected naming mode (`mode = "simple" | "suffix"`). -/
inductive NameMode where
  | simple
  | suffix
deriving DecidableEq, Repr

/-- Mode-detection loop: the first file matching either pattern fixes the
mode, testing the suffix pattern before the simple one. -/
def detectMode : List String → Option NameMode
  | [] => none
  | f :: fs =>
    if (matchSuffix f).isSome then some .suffix
    else if (matchSimple f).isSome then some .simple
    else detectMode fs

/-- POSIX absolute path test (`os.path.isabs`): starts with `/`. -/
def isAbsolute (p : String) : Bool := p.data.head? == some '/'

/-- `os.path.join(dir, f)` for POSIX paths, as used on one directory
component and one plain filename. -/
def joinPath (dir f : String) : String :=
  if isAbsolute f then f
  else if dir = "" then f
  else if dir.data.getLast? = some '/' then dir ++ f
  else dir ++ "/" ++ f

/-- Number extraction for the detected mode. -/
def extractNum (m : NameMode) (f : String) : Option Nat :=
  match m with
  | .simple => matchSimple f
  | .suffix => matchSuffix f

/-- The range / skip-list filter:
`if start is not None and number < start: continue`
`if end   is not None and number > end:   continue`
`if skip_list is not None and number in skip_list: continue` -/
def keepNumber (start stop : Option Int) (skip : Option (List Int)) (n : Nat) : Bool :=
  (match start with | some s => decide (s ≤ (n : Int)) | none => true)
  && (match stop with | some e => decide ((n : Int) ≤ e) | none => true)
  && (match skip with | some l => !(l.contains (n : Int)) | none => true)

/-- The collection loop: keep `(number, os.path.join(directory, filename))`
for each file matching the detected mode's pattern and passing the filter. -/
def collectMatches (m : NameMode) (dir : String) (start stop : Option Int)
    (skip : Option (List Int)) (files : List String) : List (Nat × String) :=
  files.filterMap fun f =>
    match extractNum m f with
    | some n => if keepNumber start stop skip n then some (n, joinPath dir f) else none
    | none => none

/-- Ordering by extracted frame number (`matches.sort(key=lambda x: x[0])`). -/
def byNum (a b : Nat × String) : Prop := a.1 ≤ b.1

instance : DecidableRel byNum := fun a b => inferInstanceAs (Decidable (a.1 ≤ b.1))

instance : IsTotal (Nat × String) byNum := ⟨fun a b => Nat.le_total a.1 b.1⟩

instance : IsTrans (Nat × String) byNum := ⟨fun _ _ _ h h' => Nat.le_trans h h'⟩

/-- The numeric sort (Python's stable `list.sort` with a key). -/
def sortMatches (l : List (Nat × String)) : List (Nat × String) :=
  List.insertionSort byNum l

/-- One manifest line: `f.write(f"file '{path}'\n")`. -/
def manifestLine (path : String) : String := "file '" ++ path ++ "'\n"

/-- `make_filelist.main`, from the directory check to the written lines.
`isDir` is the result of `os.path.isdir(directory)` and `files` the result of
`os.listdir(directory)`. -/
def makeFilelist (isDir : Bool) (dir : String) (files : List String)
    (start stop : Option Int) (skip : Option (List Int)) :
    Except String (List String) :=
  if !isDir then .error ("Not a directory: " ++ dir)
  else
    match detectMode files with
    | none => .error "No supported JPG filename patterns found"
    | some m =>
      let found := collectMatches m dir start stop skip files
      if found.isEmpty then .error "No valid JPG files found in the specified range"
      else .ok ((sortMatches found).map fun p => manifestLine p.2)

/-- The frame-number sequence of the written manifest, in written order. -/
def manifestNumbers (m : NameMode) (dir : String) (start stop : Option Int)
    (skip : Option (List Int)) (files : List String) : List Nat :=
  (sortMatches (collectMatches m dir start stop skip files)).map Prod.fst

/-! ## render_timelapse.py : option model -/

/-- `--orientation`, choices `landscape | vertical`, default `landscape`. -/
inductive Orientation where
  | landscape
  | vertical
deriving DecidableEq, Repr

/-- `--resolution`, choices `1080p | 2160p | HD | 4k`, default `1080p`. -/
inductive Resolution where
  | p1080
  | p2160
  | hd
  | k4
deriving DecidableEq, Repr

/-- The CLI string of a resolution choice. -/
def Resolution.tag : Resolution → String
  | .p1080 => "1080p"
  | .p2160 => "2160p"
  | .hd => "HD"
  | .k4 => "4k"

/-- `--aspect-mode`, choices `auto | scale | crop | pad`, default `auto`. -/
inductive AspectMode where
  | auto
  | scale
  | crop
  | pad
deriving DecidableEq, Repr

/-- `--crop-bias`, choices `upper | center | lower`, default `center`. -/
inductive CropBias where
  | upper
  | center
  | lower
deriving DecidableEq, Repr

/-- `--look`, choices `milkyway | aurora | aurora-boosted`, no default. -/
inductive LookName where
  | milkyway
  | aurora
  | auroraBoosted
deriving DecidableEq, Repr

/-- The CLI string of a look choice. -/
def LookName.tag : LookName → String
  | .milkyway => "milkyway"
  | .aurora => "aurora"
  | .auroraBoosted => "aurora-boosted"

/-- A Python value as it can sit in `args.wm_size` / `args.wm_alpha`: the
library default is a float, while any user-supplied CLI value is a string
(the two flags declare no `type=`). -/
inductive PyVal where
  | num (q : ℚ)
  | str (s : String)
deriving DecidableEq

/-- Python truthiness for the two shapes above (`if args.wm_size:`). -/
def pyTruthy : PyVal → Bool
  | .num q => decide (q ≠ 0)
  | .str s => decide (s ≠ "")

/-- `WATERMARK_DEFAULT_POSITION = "bottom-left"`. -/
def WATERMARK_DEFAULT_POSITION : String := "bottom-left"

/-- `WATERMARK_DEFAULT_SIZE = 0.12`. -/
def WATERMARK_DEFAULT_SIZE : ℚ := 0.12

/-- `WATERMARK_DEFAULT_ALPHA = 0.6`. -/
def WATERMARK_DEFAULT_ALPHA : ℚ := 0.6

/-- The parsed CLI options of `render_timelapse.py` (after `parse_args`),
with the per-flag `argparse` defaults recorded in `defaultArgs` below. -/
structure RenderArgs where
  name : Option String
  filelist : String
  orientation : Orientation
  resolution : Resolution
  aspectMode : AspectMode
  cropBias : CropBias
  debugOverlay : Bool
  fps : Int
  slowdown : ℚ
  watermark : Option String
  wmPos : String
  wmSize : PyVal
  wmAlpha : PyVal
  look : Option LookName
  gamma : ℚ
  contrast : ℚ
  saturation : ℚ
  clarity : ℚ
  boomerang : Bool
  useExifDate : Bool
deriving DecidableEq

/-- The `argparse` defaults of every flag (`filelist` is positional; it gets
a placeholder here and is overridden where it matters). -/
def defaultArgs : RenderArgs where
  name := none
  filelist := "file_list.txt"
  orientation := .landscape
  resolution := .p1080
  aspectMode := .auto
  cropBias := .center
  debugOverlay := false
  fps := 24
  slowdown := 1
  watermark := none
  wmPos := WATERMARK_DEFAULT_POSITION
  wmSize := .num WATERMARK_DEFAULT_SIZE
  wmAlpha := .num WATERMARK_DEFAULT_ALPHA
  look := none
  gamma := 1
  contrast := 1
  saturation := 1
  clarity := 0
  boomerang := false
  useExifDate := false

/-- Default aspect-mode behavior:
`if args.aspect_mode == "auto": args.aspect_mode = "crop" if args.orientation == "vertical" else "scale"`. -/
def resolveAspectMode (m : AspectMode) (o : Orientation) : AspectMode :=
  if m = .auto then (if o = .vertical then .crop else .scale) else m

/-- One look preset's four color-grade values. -/
structure LookPreset where
  gamma : ℚ
  contrast : ℚ
  saturation : ℚ
  clarity : ℚ
deriving DecidableEq

/-- The `LOOK_PRESETS` constant table. -/
def LOOK_PRESETS : LookName → LookPreset
  | .milkyway => { gamma := 1.30, contrast := 1.15, saturation := 1.10, clarity := 0.30 }
  | .aurora => { gamma := 1.35, contrast := 1.15, saturation := 1.15, clarity := 0.30 }
  | .auroraBoosted => { gamma := 1.42, contrast := 1.35, saturation := 1.3, clarity := 0.35 }

/-- "Apply look preset (unless user overrides values)": each of the four
parameters is replaced by the preset value iff it still equals its
`argparse` default (`1.0`, `1.0`, `1.0`, `0.0`). -/
def applyLook (a : RenderArgs) : RenderArgs :=
  match a.look with
  | none => a
  | some l =>
    let p := LOOK_PRESETS l
    { a with
      gamma := if a.gamma = 1 then p.gamma else a.gamma
      contrast := if a.contrast = 1 then p.contrast else a.contrast
      saturation := if a.saturation = 1 then p.saturation else a.saturation
      clarity := if a.clarity = 0 then p.clarity else a.clarity }

/-- Resolution targets `(W, H)`:
landscape `1920×1080` / `3840×2160`, vertical `1080×1920` / `2160×3840`,
picking the smaller pair iff the resolution is in `["1080p", "HD"]`. -/
def resolutionWH (o : Orientation) (r : Resolution) : Nat × Nat :=
  match o with
  | .landscape => if r = .p1080 ∨ r = .hd then (1920, 1080) else (3840, 2160)
  | .vertical => if r = .p1080 ∨ r = .hd then (1080, 1920) else (2160, 3840)

/-! ## Decimal rendering of rationals

Python f-strings interpolate the float options with `repr`; on the exact
decimal values this program handles, `repr` prints the shortest decimal form
(always with at least one fractional digit).  `fmtQ` reproduces that on `ℚ`. -/

/-- Left-pad a digit string with zeros to `k` characters. -/
def padZeros (s : String) (k : Nat) : String :=
  if k ≤ s.length then s else String.mk (List.replicate (k - s.length) '0') ++ s

/-- Decimal rendering of a rational: shortest decimal expansion when the
denominator divides a power of ten (with `.0` for integers, as Python's
float `repr`), `num/den` otherwise. -/
def fmtQ (q : ℚ) : String :=
  let sign := if q < 0 then "-" else ""
  let n := q.num.natAbs
  match (List.range 31).find? (fun k => 10 ^ k % q.den == 0) with
  | some 0 => sign ++ toString n ++ ".0"
  | some k =>
    let m := n * (10 ^ k / q.den)
    sign ++ toString (m / 10 ^ k) ++ "." ++ padZeros (toString (m % 10 ^ k)) k
  | none => sign ++ toString n ++ "/" ++ toString q.den

/-! ## Filter chain construction (ORDER MATTERS) -/

/-- Crop-bias vertical anchor expression (`y_expr`). -/
def cropYExpr : CropBias → String
  | .upper => "0"
  | .center => "(ih-oh)/2"
  | .lower => "ih-oh"

/-- The aspect-fit directive appended first: `scale` forces exact `WxH`;
`pad` fits inside and bars; `crop` covers and crops with the bias anchor;
the final branch is the source's "should not happen" fallback for an
unresolved mode, identical to `scale`. -/
def fitFilter (W H : Nat) (m : AspectMode) (bias : CropBias) : String :=
  match m with
  | .scale => "scale=" ++ toString W ++ ":" ++ toString H ++ ":flags=lanczos"
  | .pad =>
    "scale=iw*min(" ++ toString W ++ "/iw\\," ++ toString H ++ "/ih):ih*min("
      ++ toString W ++ "/iw\\," ++ toString H ++ "/ih),pad="
      ++ toString W ++ ":" ++ toString H ++ ":(ow-iw)/2:(oh-ih)/2"
  | .crop =>
    "scale=iw*max(" ++ toString W ++ "/iw\\," ++ toString H ++ "/ih):ih*max("
      ++ toString W ++ "/iw\\," ++ toString H ++ "/ih),crop="
      ++ toString W ++ ":" ++ toString H ++ ":(iw-ow)/2:" ++ cropYExpr bias
  | .auto => "scale=" ++ toString W ++ ":" ++ toString H ++ ":flags=lanczos"

/-- `eq=gamma={g}:contrast={c}:saturation={s}`. -/
def eqFilter (g c s : ℚ) : String :=
  "eq=gamma=" ++ fmtQ g ++ ":contrast=" ++ fmtQ c ++ ":saturation=" ++ fmtQ s

/-- `unsharp=3:3:{clarity}`. -/
def unsharpFilter (cl : ℚ) : String := "unsharp=3:3:" ++ fmtQ cl

/-- `setpts={slowdown}*PTS`. -/
def setptsFilter (sd : ℚ) : String := "setpts=" ++ fmtQ sd ++ "*PTS"

/-- The debug overlay directive (text braces written with `\x7b`/`\x7d`). -/
def drawtextFilter : String :=
  "drawtext=fontcolor=white:fontsize=24:text='%\x7bn\x7d %\x7bfilename\x7d':x=20:y=20:box=1:boxcolor=black@0.5"

/-- `fps={args.fps}` — appended last, unconditionally. -/
def fpsFilter (fps : Int) : String := "fps=" ++ toString fps

/-- The `filters` list exactly as `main` appends it, for already-resolved
args (look preset merged, `gamma`/`clarity`/… final): aspect fit; `eq` iff
any of gamma/contrast/saturation differs from `1.0`; `unsharp` iff
`clarity > 0`; `setpts` iff `slowdown != 1.0`; `drawtext` iff the
debug-overlay flag; `fps` last. -/
def videoFilters (a : RenderArgs) : List String :=
  let WH := resolutionWH a.orientation a.resolution
  let am := resolveAspectMode a.aspectMode a.orientation
  [fitFilter WH.1 WH.2 am a.cropBias]
    ++ (if a.gamma ≠ 1 ∨ a.contrast ≠ 1 ∨ a.saturation ≠ 1 then
          [eqFilter a.gamma a.contrast a.saturation] else [])
    ++ (if a.clarity > 0 then [unsharpFilter a.clarity] else [])
    ++ (if a.slowdown ≠ 1 then [setptsFilter a.slowdown] else [])
    ++ (if a.debugOverlay then [drawtextFilter] else [])
    ++ [fpsFilter a.fps]

/-- `vf = ",".join(filters)` for the parsed CLI options (the look-preset
merge runs before filter construction in `main`). -/
def vfString (a : RenderArgs) : String :=
  String.intercalate "," (videoFilters (applyLook a))

/-- The spec's reading of the chain (§4.3 / claim C1): an ordered sequence
of optional stages — fit, color, clarity, speed, overlay — closed by the
unconditional frame-rate lock; absent stages are omitted. -/
def specFilterStages (a : RenderArgs) : List String :=
  let WH := resolutionWH a.orientation a.resolution
  List.filterMap id
    [ some (fitFilter WH.1 WH.2 (resolveAspectMode a.aspectMode a.orientation) a.cropBias)
    , if a.gamma ≠ 1 ∨ a.contrast ≠ 1 ∨ a.saturation ≠ 1 then
        some (eqFilter a.gamma a.contrast a.saturation) else none
    , if a.clarity > 0 then some (unsharpFilter a.clarity) else none
    , if a.slowdown ≠ 1 then some (setptsFilter a.slowdown) else none
    , if a.debugOverlay then some drawtextFilter else none
    , some (fpsFilter a.fps) ]

/-! ## Output naming -/

/-- `os.path.basename` for POSIX paths. -/
def pyBasename (p : String) : String :=
  match (p.splitOn "/").getLast? with
  | some b => b
  | none => p

/-- The root part of `os.path.splitext` on a basename: cut at the last dot,
unless every character before that dot is itself a dot. -/
def splitextRoot (b : String) : String :=
  match b.data.reverse.findIdx? (· == '.') with
  | none => b
  | some rj =>
    let i := b.data.length - 1 - rj
    if (b.data.take i).all (· == '.') then b else String.mk (b.data.take i)

/-- `base_name = args.name or splitext(basename(args.filelist))[0]`, then
`base_name = f"{date_str}_{base_name}"` when `--use-exif-date` is set and a
date was extracted (`exifDate` stands for `get_exif_date_from_filelist`). -/
def baseNameOf (a : RenderArgs) (exifDate : Option String) : String :=
  let base :=
    match a.name with
    | some n => n
    | none => splitextRoot (pyBasename a.filelist)
  if a.useExifDate then
    match exifDate with
    | some d => d ++ "_" ++ base
    | none => base
  else base

/-- The `suffix` list exactly as `main` appends it: resolution tag, look
name, `slow{x}x` iff slowdown ≠ 1.0, `boom` iff boomerang, `vertical` iff
vertical, then `WM-{pos}` if the position string is truthy, else `wm` if a
watermark file was given. -/
def suffixChain (a : RenderArgs) : List String :=
  [a.resolution.tag]
    ++ (match a.look with | some l => [l.tag] | none => [])
    ++ (if a.slowdown ≠ 1 then ["slow" ++ fmtQ a.slowdown ++ "x"] else [])
    ++ (if a.boomerang then ["boom"] else [])
    ++ (if a.orientation = .vertical then ["vertical"] else [])
    ++ (if a.wmPos ≠ "" then ["WM-" ++ a.wmPos]
        else if a.watermark.isSome then ["wm"] else [])

/-- `f"{base_name}_{suffix_str}.mp4"` with `suffix_str = "_".join(suffix)`
(the enclosing `os.path.join(args.outdir, …)` is the directory part and is
not modelled here). -/
def outputFileName (a : RenderArgs) (exifDate : Option String) : String :=
  baseNameOf a exifDate ++ "_" ++ String.intercalate "_" (suffixChain a) ++ ".mp4"

/-- The spec's reading of the suffix chain (§4.2 / claim C8), for a set
position value: the same fixed order, with the watermark-position tag
appended without consulting the watermark file. -/
def specSuffixChain (a : RenderArgs) : List String :=
  [a.resolution.tag]
    ++ (match a.look with | some l => [l.tag] | none => [])
    ++ (if a.slowdown ≠ 1 then ["slow" ++ fmtQ a.slowdown ++ "x"] else [])
    ++ (if a.boomerang then ["boom"] else [])
    ++ (if a.orientation = .vertical then ["vertical"] else [])
    ++ (if a.wmPos ≠ "" then ["WM-" ++ a.wmPos] else [])

/-! ## Boomerang manifest -/

/-- Python's `str.startswith`. -/
def pyStartsWith (s p : String) : Bool := p.data.isPrefixOf s.data

/-- The manifest's `file` lines (`lines = [l for l in f if l.startswith("file")]`). -/
def fileLines (ls : List String) : List String :=
  ls.filter (fun l => pyStartsWith l "file")

/-- The temporary boomerang manifest: the original `file` lines, then
`lines[::-1][1:]` — the reversed sequence with the duplicate last frame
dropped. -/
def boomerangLines (ls : List String) : List String :=
  fileLines ls ++ (fileLines ls).reverse.drop 1

/-! ## Watermark options -/

/-- The `WATERMARK_POSITIONS` table of overlay position expressions. -/
def WATERMARK_POSITIONS : List (String × String) :=
  [ ("top-left", "0.02*W:0.02*H")
  , ("top-right", "W-w-0.02*W:0.02*H")
  , ("bottom-left", "0.02*W:H-h-0.02*H")
  , ("bottom-right", "W-w-0.02*W:H-h-0.02*H")
  , ("center", "(W-w)/2:(H-h)/2")
  , ("center-bottom", "(W-w)/2:H-h-0.04*H") ]

/-- The `WATERMARK_SIZES` table (its `"default"` entry is
`WATERMARK_DEFAULT_SIZE`). -/
def WATERMARK_SIZES : List (String × ℚ) :=
  [("small", 0.08), ("default", WATERMARK_DEFAULT_SIZE), ("large", 0.15)]

/-- The `WATERMARK_TRANSPARENCY` table (its `"default"` entry is
`WATERMARK_DEFAULT_ALPHA`). -/
def WATERMARK_TRANSPARENCY : List (String × ℚ) :=
  [("weak", 0.8), ("default", WATERMARK_DEFAULT_ALPHA), ("strong", 0.35)]

/-- `WATERMARK_VERTICAL_MULTIPLIER = 1.35`. -/
def WATERMARK_VERTICAL_MULTIPLIER : ℚ := 1.35

/-- Size-factor resolution: `watermark_size` starts at the default; when
`args.wm_size` is truthy, a numeric value (only the untouched library
default can be one) is taken as is, and a string is looked up in
`WATERMARK_SIZES` with the table's `"default"` entry as fallback. -/
def resolveWmSize (v : PyVal) : ℚ :=
  if pyTruthy v then
    match v with
    | .num q => q
    | .str s => (WATERMARK_SIZES.lookup s).getD WATERMARK_DEFAULT_SIZE
  else WATERMARK_DEFAULT_SIZE

/-- Alpha resolution, same shape over `WATERMARK_TRANSPARENCY`. -/
def resolveWmAlpha (v : PyVal) : ℚ :=
  if pyTruthy v then
    match v with
    | .num q => q
    | .str s => (WATERMARK_TRANSPARENCY.lookup s).getD WATERMARK_DEFAULT_ALPHA
  else WATERMARK_DEFAULT_ALPHA

/-- "Slightly boost watermark size for vertical video by default". -/
def wmSizeBoosted (o : Orientation) (s : ℚ) : ℚ :=
  if o = .vertical then s * WATERMARK_VERTICAL_MULTIPLIER else s

/-- Python `int()` on a rational: truncation toward zero. -/
def pyInt (q : ℚ) : Int := q.num.tdiv (q.den : Int)

/-- `wm_target_px = min(int(min(W, H) * watermark_size), 512)`, for the
already-boosted size factor. -/
def wmTargetPx (o : Orientation) (r : Resolution) (s : ℚ) : Int :=
  let WH := resolutionWH o r
  min (pyInt ((min WH.1 WH.2 : ℚ) * wmSizeBoosted o s)) 512

/-! ## Helper lemmas -/

/-- Python `int()` agrees with the floor on nonnegative rationals. -/
theorem pyInt_eq_floor (q : ℚ) (hq : 0 ≤ q) : pyInt q = ⌊q⌋ := by
  rw [Rat.floor_def, pyInt]
  exact Int.tdiv_eq_ediv (Rat.num_nonneg.mpr hq) (Int.natCast_nonneg _)

/-- A character whose lowercase form is `d` is not a path separator. -/
theorem toLower_ne_slash (c : Char) (h : c.toLower = 'd') : (c == '/') = false := by
  rw [beq_eq_false_iff_ne]
  intro hc
  rw [hc] at h
  exact absurd h (by decide)

/-- A filename matched by the simple pattern starts with `D`/`d`, hence is
not absolute. -/
theorem matchSimple_not_abs (f : String) (n : Nat) (h : matchSimple f = some n) :
    isAbsolute f = false := by
  rw [matchSimple] at h
  split at h
  case _ c1 c2 c3 c4 n1 n2 n3 n4 c5 c6 c7 c8 heq =>
    split at h
    case isTrue hcond =>
      simp only [Bool.and_eq_true] at hcond
      have hlow : c1.toLower = 'd' := by
        have h1 := hcond.1.1.1.1.1.1.1.1.1.1.1
        rw [eqCI, beq_iff_eq] at h1
        exact h1
      simp [isAbsolute, heq, toLower_ne_slash c1 hlow]
    case isFalse _ => exact absurd h (by simp)
  case _ => exact absurd h (by simp)

/-- A filename matched by the suffix pattern starts with `D`/`d`, hence is
not absolute. -/
theorem matchSuffix_not_abs (f : String) (n : Nat) (h : matchSuffix f = some n) :
    isAbsolute f = false := by
  rw [matchSuffix] at h
  split at h
  case _ heq =>
    split at h
    case isTrue hcond =>
      simp only [Bool.and_eq_true] at hcond
      have hlow := hcond.1.1.1.1.1.1.1.1.1.1.1.1.1.1.1.1
      rw [eqCI, beq_iff_eq] at hlow
      simp [isAbsolute, heq, toLower_ne_slash _ hlow]
    case isFalse _ => exact absurd h (by simp)
  case _ => exact absurd h (by simp)

/-- Any filename a mode extracts a number from is not absolute. -/
theorem extractNum_not_abs (m : NameMode) (f : String) (n : Nat)
    (h : extractNum m f = some n) : isAbsolute f = false := by
  cases m
  · exact matchSimple_not_abs f n h
  · exact matchSuffix_not_abs f n h

/-- Joining a non-absolute filename onto a directory yields an absolute
path exactly when the directory is absolute. -/
theorem joinPath_abs (dir f : String) (hf : isAbsolute f = false) :
    isAbsolute (joinPath dir f) = isAbsolute dir := by
  rw [joinPath, hf]
  simp only [Bool.false_eq_true, if_false]
  by_cases hdir : dir = ""
  · rw [if_pos hdir, hf, hdir]
    decide
  · rw [if_neg hdir]
    have hds : dir.data ≠ [] := fun h => hdir (String.ext (h.trans rfl))
    by_cases hlast : dir.data.getLast? = some '/'
    · rw [if_pos hlast]
      cases hd : dir.data with
      | nil => exact absurd hd hds
      | cons c cs => simp [isAbsolute, String.data_append, hd]
    · rw [if_neg hlast]
      cases hd : dir.data with
      | nil => exact absurd hd hds
      | cons c cs => simp [isAbsolute, String.data_append, hd]

/-! ## Claims -/

/-- C1: for every option set, the single-stream filter string `vf` is the
comma-join of: the aspect-fit stage (scale / pad / scale+crop per the
resolved mode, the crop anchor per crop-bias), then `eq` iff one of
gamma/contrast/saturation (after the look merge) differs from 1.0, then
`unsharp` iff clarity > 0, then `setpts` iff slowdown ≠ 1.0, then
`drawtext` iff the debug-overlay flag, and finally the unconditional `fps`
stage; absent stages are omitted, never reordered. -/
theorem filter_chain_order (a : RenderArgs) :
    vfString a = String.intercalate "," (specFilterStages (applyLook a)) := by
  rw [vfString]
  congr 1
  generalize applyLook a = b
  by_cases h1 : b.gamma ≠ 1 ∨ b.contrast ≠ 1 ∨ b.saturation ≠ 1 <;>
    by_cases h2 : b.clarity > 0 <;>
    by_cases h3 : b.slowdown ≠ 1 <;>
    by_cases h4 : b.debugOverlay = true <;>
    simp [videoFilters, specFilterStages, h1, h2, h3, h4]

/-- C2: for `N ≥ 1` manifest `file`-lines, the boomerang manifest has
exactly `2*N - 1` lines — the originals in order, then the reversal with
the duplicate last frame dropped — and (when `N ≥ 2` makes it meaningful)
its line `N+1` (index `N`) equals line `N-1` (index `N-2`) of the
original `file`-line sequence. -/
theorem boomerang_manifest_shape (ls : List String) (N : Nat)
    (hN : (fileLines ls).length = N) (h1 : 1 ≤ N) :
    (boomerangLines ls).length = 2 * N - 1 ∧
      (2 ≤ N → (boomerangLines ls)[N]? = (fileLines ls)[N - 2]?) := by
  constructor
  · rw [boomerangLines, List.length_append, List.length_drop, List.length_reverse, hN]
    omega
  · intro h2
    rw [boomerangLines, List.getElem?_append_right (by rw [hN])]
    rw [hN, Nat.sub_self, List.getElem?_drop,
      List.getElem?_reverse (by rw [hN]; omega), hN]
    have hidx : N - 1 - (1 + 0) = N - 2 := by omega
    rw [hidx]

/-- Witness for C2 at a three-line manifest. -/
theorem boomerang_manifest_shape_witness :
    (fileLines ["file 'a.JPG'\n", "file 'b.JPG'\n", "file 'c.JPG'\n"]).length = 3 ∧
      1 ≤ 3 ∧
      ((boomerangLines ["file 'a.JPG'\n", "file 'b.JPG'\n", "file 'c.JPG'\n"]).length
          = 2 * 3 - 1 ∧
        (2 ≤ 3 →
          (boomerangLines ["file 'a.JPG'\n", "file 'b.JPG'\n", "file 'c.JPG'\n"])[3]?
            = (fileLines ["file 'a.JPG'\n", "file 'b.JPG'\n", "file 'c.JPG'\n"])[3 - 2]?)) :=
  ⟨by decide, by decide,
    boomerang_manifest_shape ["file 'a.JPG'\n", "file 'b.JPG'\n", "file 'c.JPG'\n"] 3
      (by decide) (by decide)⟩

/-- The concrete argument record of claim C3: `--look milkyway` together
with an explicit `--gamma 1.0` (which `parse_args` stores exactly like the
untouched default). -/
def c3args : RenderArgs := { defaultArgs with look := some .milkyway }

/-- C3 counterexample: with look `milkyway` and explicit `gamma=1.0` the
final gamma is the preset's 1.30, not 1.0 — the claimed invariant that an
explicit user value always overrides the preset fails for values equal to
the library default. -/
theorem look_preset_overrides_explicit_default :
    (applyLook c3args).gamma = (LOOK_PRESETS .milkyway).gamma ∧
      (applyLook c3args).gamma ≠ 1 := by
  constructor
  · simp [applyLook, c3args, defaultArgs]
  · simp [applyLook, c3args, defaultArgs, LOOK_PRESETS]
    norm_num

/-- C3 amended: a look preset replaces each of the four color parameters iff
that parameter equals its library default (1.0 / 1.0 / 1.0 / 0.0); a user
value differing from the default is kept, while an explicit value equal to
the default is indistinguishable from "unset" and is overridden. -/
theorem look_merge_per_default (a : RenderArgs) (l : LookName)
    (hl : a.look = some l) :
    ((a.gamma = 1 → (applyLook a).gamma = (LOOK_PRESETS l).gamma) ∧
        (a.gamma ≠ 1 → (applyLook a).gamma = a.gamma)) ∧
      ((a.contrast = 1 → (applyLook a).contrast = (LOOK_PRESETS l).contrast) ∧
        (a.contrast ≠ 1 → (applyLook a).contrast = a.contrast)) ∧
      ((a.saturation = 1 → (applyLook a).saturation = (LOOK_PRESETS l).saturation) ∧
        (a.saturation ≠ 1 → (applyLook a).saturation = a.saturation)) ∧
      ((a.clarity = 0 → (applyLook a).clarity = (LOOK_PRESETS l).clarity) ∧
        (a.clarity ≠ 0 → (applyLook a).clarity = a.clarity)) := by
  refine ⟨⟨?_, ?_⟩, ⟨?_, ?_⟩, ⟨?_, ?_⟩, ⟨?_, ?_⟩⟩ <;> intro h <;>
    simp [applyLook, hl, h]

/-- The concrete argument record of the C3 witness: `--look milkyway` with
an explicit non-default `--gamma 1.2`. -/
def c3wargs : RenderArgs := { defaultArgs with look := some .milkyway, gamma := Rat.mk' 6 5 }

/-- Witness for the amended C3: an explicit gamma of 1.2 (≠ default)
survives the `milkyway` preset. -/
theorem look_merge_per_default_witness :
    c3wargs.look = some LookName.milkyway ∧ c3wargs.gamma ≠ 1 ∧
      (applyLook c3wargs).gamma = c3wargs.gamma :=
  ⟨rfl, by decide, (look_merge_per_default c3wargs .milkyway rfl).1.2 (by decide)⟩

/-- C9: the watermark target pixel width is the shorter output dimension
times the (vertically boosted) size factor, floored, capped at 512. -/
theorem wm_target_px_floor_cap (o : Orientation) (r : Resolution) (s : ℚ)
    (hs : 0 ≤ s) :
    wmTargetPx o r s
      = min ⌊(min (resolutionWH o r).1 (resolutionWH o r).2 : ℚ) * wmSizeBoosted o s⌋ 512 := by
  have hboost : 0 ≤ wmSizeBoosted o s := by
    rw [wmSizeBoosted]
    split
    · exact mul_nonneg hs (by norm_num [WATERMARK_VERTICAL_MULTIPLIER])
    · exact hs
  have hprod : 0 ≤ (min (resolutionWH o r).1 (resolutionWH o r).2 : ℚ) * wmSizeBoosted o s :=
    mul_nonneg (by positivity) hboost
  rw [wmTargetPx]
  rw [pyInt_eq_floor _ hprod]

/-- Witness for C9: vertical HD with the default size factor 0.12. -/
theorem wm_target_px_floor_cap_witness :
    (0 : ℚ) ≤ Rat.mk' 3 25 ∧
      wmTargetPx .vertical .hd (Rat.mk' 3 25)
        = min ⌊(min (resolutionWH .vertical .hd).1 (resolutionWH .vertical .hd).2 : ℚ)
            * wmSizeBoosted .vertical (Rat.mk' 3 25)⌋ 512 :=
  ⟨by decide, wm_target_px_floor_cap .vertical .hd (Rat.mk' 3 25) (by decide)⟩

/-- C10: a user-supplied `--wm-size` arrives as a string; any value outside
the size table's keys silently resolves to the default 0.12, and any
`--wm-alpha` outside the transparency table's keys silently resolves to the
default 0.6 — no error is raised. -/
theorem wm_string_fallback :
    (∀ s : String, s ∉ ["small", "default", "large"] →
        resolveWmSize (.str s) = 0.12) ∧
      (∀ s : String, s ∉ ["weak", "default", "strong"] →
        resolveWmAlpha (.str s) = 0.6) := by
  constructor
  · intro s hs
    simp only [List.mem_cons, List.not_mem_nil, or_false, not_or] at hs
    by_cases hempty : s = ""
    · simp [resolveWmSize, pyTruthy, hempty, WATERMARK_DEFAULT_SIZE]
    · have hnone : WATERMARK_SIZES.lookup s = none := by
        simp [WATERMARK_SIZES, List.lookup, beq_eq_false_iff_ne.mpr hs.1,
          beq_eq_false_iff_ne.mpr hs.2.1, beq_eq_false_iff_ne.mpr hs.2.2]
      simp [resolveWmSize, pyTruthy, hempty, hnone, WATERMARK_DEFAULT_SIZE]
  · intro s hs
    simp only [List.mem_cons, List.not_mem_nil, or_false, not_or] at hs
    by_cases hempty : s = ""
    · simp [resolveWmAlpha, pyTruthy, hempty, WATERMARK_DEFAULT_ALPHA]
    · have hnone : WATERMARK_TRANSPARENCY.lookup s = none := by
        simp [WATERMARK_TRANSPARENCY, List.lookup, beq_eq_false_iff_ne.mpr hs.1,
          beq_eq_false_iff_ne.mpr hs.2.1, beq_eq_false_iff_ne.mpr hs.2.2]
      simp [resolveWmAlpha, pyTruthy, hempty, hnone, WATERMARK_DEFAULT_ALPHA]

/-- Witness for C10: the numeric-looking strings "0.2" and "0.5" fall back
to the library defaults. -/
theorem wm_string_fallback_witness :
    ("0.2" ∉ (["small", "default", "large"] : List String) ∧
        resolveWmSize (.str "0.2") = 0.12) ∧
      ("0.5" ∉ (["weak", "default", "strong"] : List String) ∧
        resolveWmAlpha (.str "0.5") = 0.6) :=
  ⟨⟨by decide, wm_string_fallback.1 "0.2" (by decide)⟩,
    ⟨by decide, wm_string_fallback.2 "0.5" (by decide)⟩⟩

/-- C4: every frame number appearing in the written manifest respects the
start bound (when set), the end bound (when set) and avoids the skip-list;
an unset bound is unbounded. -/
theorem manifest_numbers_within_bounds (m : NameMode) (dir : String)
    (start stop : Option Int) (skip : Option (List Int)) (files : List String)
    (n : Nat) (hn : n ∈ manifestNumbers m dir start stop skip files) :
    (∀ s, start = some s → s ≤ (n : Int)) ∧
      (∀ e, stop = some e → (n : Int) ≤ e) ∧
      (∀ l, skip = some l → (n : Int) ∉ l) := by
  rw [manifestNumbers, sortMatches] at hn
  rcases List.mem_map.mp hn with ⟨p, hp, hpn⟩
  have hp' : p ∈ collectMatches m dir start stop skip files :=
    (List.perm_insertionSort byNum _).mem_iff.mp hp
  rcases List.mem_filterMap.mp hp' with ⟨f, _, hsome⟩
  split at hsome
  case _ k heq =>
    split at hsome
    case isTrue hk =>
      cases hsome
      unfold keepNumber at hk
      rw [Bool.and_eq_true, Bool.and_eq_true] at hk
      rw [← hpn]
      refine ⟨fun s hs => ?_, fun e he => ?_, fun l hl => ?_⟩
      · have h1 := hk.1
        rw [hs] at h1
        simpa using h1.1
      · have h1 := hk.1
        rw [he] at h1
        simpa using h1.2
      · have h2 := hk.2
        rw [hl] at h2
        simpa using h2
    case isFalse _ => cases hsome
  case _ => cases hsome

/-- Witness for C4: frame 12 inside `[10, 20]` with skip-list `[15]`. -/
theorem manifest_numbers_within_bounds_witness :
    12 ∈ manifestNumbers .simple "d" (some 10) (some 20) (some [15]) ["DSCF0012.JPG"] ∧
      ((∀ s, (some 10 : Option Int) = some s → s ≤ ((12 : Nat) : Int)) ∧
        (∀ e, (some 20 : Option Int) = some e → ((12 : Nat) : Int) ≤ e) ∧
        (∀ l, (some [15] : Option (List Int)) = some l → ((12 : Nat) : Int) ∉ l)) :=
  ⟨by decide,
    manifest_numbers_within_bounds .simple "d" (some 10) (some 20) (some [15])
      ["DSCF0012.JPG"] 12 (by decide)⟩

/-- C5 counterexample: the two suffix-mode files `DSCF0851_0001.JPG` and
`DSCF0852_0001.JPG` (one naming convention) both extract counter 1, so the
manifest's number sequence is `[1, 1]` — ascending but not strictly. -/
theorem manifest_order_not_strict :
    detectMode ["DSCF0851_0001.JPG", "DSCF0852_0001.JPG"] = some .suffix ∧
      manifestNumbers .suffix "photos" none none none
          ["DSCF0851_0001.JPG", "DSCF0852_0001.JPG"] = [1, 1] ∧
      ¬ List.Sorted (· < ·)
          (manifestNumbers .suffix "photos" none none none
            ["DSCF0851_0001.JPG", "DSCF0852_0001.JPG"]) := by
  refine ⟨by decide, by decide, ?_⟩
  intro hs
  rw [show manifestNumbers .suffix "photos" none none none
      ["DSCF0851_0001.JPG", "DSCF0852_0001.JPG"] = [1, 1] from by decide] at hs
  exact absurd hs (by decide)

/-- C5 amended: the manifest's frame-number sequence is ascending (`≤`) and
independent of the filesystem listing order; it is strictly ascending when
the extracted numbers are pairwise distinct (equal numbers — e.g. equal
suffix counters under different DSCF prefixes — repeat). -/
theorem manifest_numbers_sorted_perm (m : NameMode) (dir : String)
    (start stop : Option Int) (skip : Option (List Int))
    (files files' : List String) (hperm : files.Perm files') :
    List.Sorted (· ≤ ·) (manifestNumbers m dir start stop skip files) ∧
      manifestNumbers m dir start stop skip files
        = manifestNumbers m dir start stop skip files' ∧
      ((manifestNumbers m dir start stop skip files).Nodup →
        List.Sorted (· < ·) (manifestNumbers m dir start stop skip files)) := by
  have hsorted : ∀ fs, List.Sorted (· ≤ ·) (manifestNumbers m dir start stop skip fs) := by
    intro fs
    rw [manifestNumbers, sortMatches]
    exact List.Pairwise.map Prod.fst (fun a b hab => hab)
      (List.sorted_insertionSort byNum (collectMatches m dir start stop skip fs))
  refine ⟨hsorted files, ?_, ?_⟩
  · have hp : (manifestNumbers m dir start stop skip files).Perm
        (manifestNumbers m dir start stop skip files') := by
      rw [manifestNumbers, manifestNumbers, sortMatches, sortMatches]
      exact List.Perm.map Prod.fst
        ((List.perm_insertionSort byNum _).trans
          ((hperm.filterMap _).trans (List.perm_insertionSort byNum _).symm))
    exact List.eq_of_perm_of_sorted hp (hsorted files) (hsorted files')
  · intro hnd
    exact ((hsorted files).and hnd).imp fun h => lt_of_le_of_ne h.1 h.2

/-- Witness for the amended C5: two listings of the same directory in
opposite orders produce the same ascending (here strictly ascending)
number sequence. -/
theorem manifest_numbers_sorted_perm_witness :
    (["DSCF0002.JPG", "DSCF0001.JPG"] : List String).Perm
        ["DSCF0001.JPG", "DSCF0002.JPG"] ∧
      (List.Sorted (· ≤ ·)
          (manifestNumbers .simple "d" none none none ["DSCF0002.JPG", "DSCF0001.JPG"]) ∧
        manifestNumbers .simple "d" none none none ["DSCF0002.JPG", "DSCF0001.JPG"]
          = manifestNumbers .simple "d" none none none ["DSCF0001.JPG", "DSCF0002.JPG"] ∧
        ((manifestNumbers .simple "d" none none none
            ["DSCF0002.JPG", "DSCF0001.JPG"]).Nodup →
          List.Sorted (· < ·)
            (manifestNumbers .simple "d" none none none
              ["DSCF0002.JPG", "DSCF0001.JPG"]))) :=
  ⟨by decide,
    manifest_numbers_sorted_perm .simple "d" none none none
      ["DSCF0002.JPG", "DSCF0001.JPG"] ["DSCF0001.JPG", "DSCF0002.JPG"] (by decide)⟩

/-- C6: the manifest builder fails exactly when the path is not a
directory, or no filename matches either pattern, or zero files remain
after the range/skip filter; in every other case the run returns the
manifest lines (which are then written over the output file). -/
theorem makeFilelist_error_iff (isDir : Bool) (dir : String) (files : List String)
    (start stop : Option Int) (skip : Option (List Int)) :
    ((∃ e, makeFilelist isDir dir files start stop skip = .error e) ↔
        (isDir = false ∨ detectMode files = none ∨
          ∃ m, detectMode files = some m ∧
            collectMatches m dir start stop skip files = [])) ∧
      ((∃ lines, makeFilelist isDir dir files start stop skip = .ok lines) ↔
        ¬ (isDir = false ∨ detectMode files = none ∨
          ∃ m, detectMode files = some m ∧
            collectMatches m dir start stop skip files = [])) := by
  have herr : (∃ e, makeFilelist isDir dir files start stop skip = .error e) ↔
      (isDir = false ∨ detectMode files = none ∨
        ∃ m, detectMode files = some m ∧
          collectMatches m dir start stop skip files = []) := by
    cases isDir with
    | false => simp [makeFilelist]
    | true =>
      rw [makeFilelist]
      cases hd : detectMode files with
      | none => simp
      | some m =>
        by_cases he : collectMatches m dir start stop skip files = []
        · simp [he, List.isEmpty_iff]
        · simp [he, List.isEmpty_iff]
  refine ⟨herr, ?_, ?_⟩
  · rintro ⟨lines, hl⟩ hc
    rcases herr.mpr hc with ⟨e, he⟩
    rw [hl] at he
    cases he
  · intro hnc
    cases hres : makeFilelist isDir dir files start stop skip with
    | error e => exact absurd (herr.mp ⟨e, hres⟩) hnc
    | ok lines => exact ⟨lines, rfl⟩

/-- C7 counterexample: with the relative directory argument `photos` the
manifest line holds the relative path `photos/DSCF0001.JPG`, not an
absolute path. -/
theorem manifest_path_not_absolute :
    makeFilelist true "photos" ["DSCF0001.JPG"] none none none
        = .ok ["file 'photos/DSCF0001.JPG'\n"] ∧
      isAbsolute "photos/DSCF0001.JPG" = false :=
  ⟨rfl, by decide⟩

/-- C7 amended: every line of a successful run is
`file '<os.path.join(directory, filename)>'` plus newline; the quoted path
is absolute iff the directory argument is absolute (matched filenames never
begin with a separator). -/
theorem manifest_lines_joined (isDir : Bool) (dir : String) (files : List String)
    (start stop : Option Int) (skip : Option (List Int)) (lines : List String)
    (hok : makeFilelist isDir dir files start stop skip = Except.ok lines)
    (l : String) (hl : l ∈ lines) :
    ∃ f ∈ files, l = manifestLine (joinPath dir f) ∧
      isAbsolute (joinPath dir f) = isAbsolute dir := by
  cases isDir with
  | false => simp [makeFilelist] at hok
  | true =>
    rw [makeFilelist] at hok
    cases hd : detectMode files with
    | none => rw [hd] at hok; simp at hok
    | some m =>
      rw [hd] at hok
      simp only [Bool.not_true, Bool.false_eq_true, if_false] at hok
      by_cases he : (collectMatches m dir start stop skip files).isEmpty = true
      · rw [if_pos he] at hok; cases hok
      · rw [if_neg he] at hok
        cases hok
        rcases List.mem_map.mp hl with ⟨p, hp, hpl⟩
        have hp' : p ∈ collectMatches m dir start stop skip files :=
          (List.perm_insertionSort byNum _).mem_iff.mp hp
        rcases List.mem_filterMap.mp hp' with ⟨f, hf, hsome⟩
        split at hsome
        case _ k heq =>
          split at hsome
          case isTrue hk =>
            cases hsome
            exact ⟨f, hf, hpl.symm,
              joinPath_abs dir f (extractNum_not_abs m f k heq)⟩
          case isFalse _ => cases hsome
        case _ => cases hsome

/-- Witness for the amended C7: an absolute directory yields an absolute
manifest path of the joined form. -/
theorem manifest_lines_joined_witness :
    makeFilelist true "/photos" ["DSCF0002.JPG"] none none none
        = Except.ok ["file '/photos/DSCF0002.JPG'\n"] ∧
      "file '/photos/DSCF0002.JPG'\n" ∈ ["file '/photos/DSCF0002.JPG'\n"] ∧
      ∃ f ∈ ["DSCF0002.JPG"],
        "file '/photos/DSCF0002.JPG'\n" = manifestLine (joinPath "/photos" f) ∧
          isAbsolute (joinPath "/photos" f) = isAbsolute "/photos" :=
  ⟨rfl, by decide,
    manifest_lines_joined true "/photos" ["DSCF0002.JPG"] none none none
      ["file '/photos/DSCF0002.JPG'\n"] rfl
      "file '/photos/DSCF0002.JPG'\n" (by decide)⟩

/-- C8: for a set (truthy) watermark-position value the output filename is
the base name, an underscore, then the underscore-joined suffix chain in
the fixed order resolution → look → slowdown tag → boom → vertical →
`WM-<position>`, with the watermark-position tag present independently of
whether a watermark file was supplied. -/
theorem output_name_structure (a : RenderArgs) (exifDate : Option String)
    (hpos : a.wmPos ≠ "") :
    outputFileName a exifDate
        = baseNameOf a exifDate ++ "_"
            ++ String.intercalate "_" (specSuffixChain a) ++ ".mp4" ∧
      suffixChain a = suffixChain { a with watermark := none } := by
  constructor
  · rw [outputFileName]
    have hchain : suffixChain a = specSuffixChain a := by
      rw [suffixChain, specSuffixChain, if_pos hpos, if_pos hpos]
    rw [hchain]
  · rw [suffixChain, suffixChain, if_pos hpos, if_pos hpos]

/-- The concrete argument record of the C8 witness / spec example:
`{name="seq1", resolution="4k", look="aurora", slowdown=1.5}` with all
other flags at their defaults. -/
def c8args : RenderArgs :=
  { defaultArgs with
    name := some "seq1"
    resolution := .k4
    look := some .aurora
    slowdown := Rat.mk' 3 2 }

/-- Witness for C8: the spec's example inputs produce
`seq1_4k_aurora_slow1.5x_WM-bottom-left.mp4` (the default watermark
position being set, its tag is appended even with no watermark file). -/
theorem output_name_structure_witness :
    c8args.wmPos ≠ "" ∧
      outputFileName c8args none = "seq1_4k_aurora_slow1.5x_WM-bottom-left.mp4" :=
  ⟨by decide, by
    rw [(output_name_structure c8args none (by decide)).1]
    decide⟩

end Timelapse
